import Mathlib

/-!
Shallow embedding of the Zulmapp backend (`src/server.js`) and proofs of the
spec's claims about it.

Modelling conventions:
* A JavaScript `Date` carrying the Buenos Aires wall-clock time is modelled by
  `ArgTime`: the calendar date, the `getDay()` value, and the hour/minute
  fields.  The host clock is taken to be UTC, so `toISOString().split('T')[0]`
  is the calendar date of the value itself.
* Strings stay `String`; JS `trim` and `split('@')[0]` are modelled by
  structurally recursive functions over the character list so they compute.
* Optional JSON body fields are `Option String`; JS falsiness of a string
  field (`!x`) holds exactly for an absent field or the empty string.
* Submission timestamps (`timestamp` column, an ISO string in the code whose
  lexicographic order is chronological order) are modelled as `Nat` ticks.
* The Supabase store is modelled by a `List Pedido` in row-insertion order;
  the `order('timestamp', ascending)` query is a stable sort by timestamp.
  A fallible store query is an `Except String` value passed in explicitly.
-/

/-- JS `String.prototype.trim` on the character list (computable stand-in for
`s.trim()` in the source). -/
def jsTrim (s : String) : String :=
  String.mk (((s.data.dropWhile Char.isWhitespace).reverse.dropWhile
    Char.isWhitespace).reverse)

/-- JS `email.split('@')[0]`: the characters before the first `'@'`. -/
def emailLocalPart (s : String) : String :=
  String.mk (s.data.takeWhile (fun c => c ≠ '@'))

/-- JS falsiness of an optional string field: absent or the empty string. -/
def jsFalsy : Option String → Bool
  | none => true
  | some s => s == ""

/-- JS `x || ''` on an optional string field. -/
def jsOrEmpty (s : Option String) : String := s.getD ""

/-- A calendar date (year, month 1-12, day 1-31). -/
structure DateOnly where
  year : Nat
  month : Nat
  day : Nat
deriving DecidableEq

/-- Gregorian leap-year rule, as in the JS `Date` calendar. -/
def isLeap (y : Nat) : Bool := (y % 4 == 0 && y % 100 != 0) || (y % 400 == 0)

/-- Number of days of a month in the JS `Date` calendar. -/
def daysInMonth (y m : Nat) : Nat :=
  if m == 2 then (if isLeap y then 29 else 28)
  else if m == 4 || m == 6 || m == 9 || m == 11 then 30
  else 31

/-- `tomorrow.setDate(argTime.getDate() + 1)` at a valid date: the next
calendar day, rolling over month and year ends. -/
def addOneDay (d : DateOnly) : DateOnly :=
  if d.day + 1 ≤ daysInMonth d.year d.month then ⟨d.year, d.month, d.day + 1⟩
  else if d.month + 1 ≤ 12 then ⟨d.year, d.month + 1, 1⟩
  else ⟨d.year + 1, 1, 1⟩

/-- Left-pad a number to two digits, as in an ISO date string. -/
def pad2 (n : Nat) : String := if n < 10 then "0" ++ toString n else toString n

/-- Left-pad a year to four digits, as in an ISO date string. -/
def pad4 (n : Nat) : String :=
  if n < 10 then "000" ++ toString n
  else if n < 100 then "00" ++ toString n
  else if n < 1000 then "0" ++ toString n
  else toString n

/-- `date.toISOString().split('T')[0]` under the UTC-host convention. -/
def isoDateString (d : DateOnly) : String :=
  pad4 d.year ++ "-" ++ pad2 d.month ++ "-" ++ pad2 d.day

/-- The Buenos Aires wall-clock moment a JS `Date` observes: calendar date,
`getDay()` (0 = Sunday .. 6 = Saturday), `getHours()`, `getMinutes()`. -/
structure ArgTime where
  date : DateOnly
  dayOfWeek : Nat
  hour : Nat
  minute : Nat
deriving DecidableEq

/-- `getCycleDate` from `src/server.js`: with hour ≥ 14 the cycle is
tomorrow's ISO date, otherwise today's. -/
def getCycleDate (argTime : ArgTime) : String :=
  if argTime.hour ≥ 14 then isoDateString (addOneDay argTime.date)
  else isoDateString argTime.date

/-- Default `ADMIN_EMAILS` fallback list from `src/server.js`. -/
def ADMIN_EMAILS : List String :=
  ["juliandanielpappalettera@gmail.com",
   "leandro.binetti@gmail.com",
   "alanpablomarino@gmail.com"]

/-- Result of `checkTimeRestriction`. -/
structure TimeCheck where
  allowed : Bool
  isAdmin : Bool
deriving DecidableEq

/-- `checkTimeRestriction` from `src/server.js`, parameterised by the
configured administrator list and the current Buenos Aires time. -/
def checkTimeRestriction (adminEmails : List String) (userEmail : String)
    (argTime : ArgTime) : TimeCheck :=
  if adminEmails.contains userEmail then ⟨true, true⟩
  else
    let dayOfWeek := argTime.dayOfWeek
    let hour := argTime.hour
    let minute := argTime.minute
    let isWeekday : Bool := dayOfWeek ≥ 1 && dayOfWeek ≤ 5
    let isInTimeRange : Bool :=
      hour ≥ 14 || hour < 10 || (hour == 10 && minute ≤ 15)
    ⟨isWeekday && isInTimeRange, false⟩

/-- C1: `getCycleDate` maps an hour ≥ 14 (the cutover) to the ISO date of the
next calendar day and an hour < 14 to the ISO date of the current day; in
particular 14:00 exactly is tomorrow and 13:59 is today. -/
theorem getCycleDate_cutover (t : ArgTime) :
    (14 ≤ t.hour → getCycleDate t = isoDateString (addOneDay t.date)) ∧
    (t.hour < 14 → getCycleDate t = isoDateString t.date) := by
  constructor
  · intro h
    simp [getCycleDate, h]
  · intro h
    simp [getCycleDate, Nat.not_le.mpr h]

/-- C1 witness: Monday 2025-10-06 at 14:00 cycles to 2025-10-07, and at 13:59
it stays on 2025-10-06. -/
theorem getCycleDate_cutover_witness :
    getCycleDate ⟨⟨2025, 10, 6⟩, 1, 14, 0⟩ = "2025-10-07" ∧
    getCycleDate ⟨⟨2025, 10, 6⟩, 1, 13, 59⟩ = "2025-10-06" :=
  ⟨((getCycleDate_cutover ⟨⟨2025, 10, 6⟩, 1, 14, 0⟩).1 (by decide)).trans
      (by decide),
   ((getCycleDate_cutover ⟨⟨2025, 10, 6⟩, 1, 13, 59⟩).2 (by decide)).trans
      (by decide)⟩

/-- C2: an identity in the configured administrator list gets
`allowed = true, isAdmin = true` at every local time, weekends included. -/
theorem checkTimeRestriction_admin (adminEmails : List String)
    (userEmail : String) (t : ArgTime) (h : userEmail ∈ adminEmails) :
    checkTimeRestriction adminEmails userEmail t = ⟨true, true⟩ := by
  simp [checkTimeRestriction, h]

/-- C2 witness: the first default administrator on a Sunday at 03:07. -/
theorem checkTimeRestriction_admin_witness :
    checkTimeRestriction ADMIN_EMAILS "juliandanielpappalettera@gmail.com"
      ⟨⟨2025, 10, 5⟩, 0, 3, 7⟩ = ⟨true, true⟩ :=
  checkTimeRestriction_admin ADMIN_EMAILS "juliandanielpappalettera@gmail.com"
    ⟨⟨2025, 10, 5⟩, 0, 3, 7⟩ (by decide)

/-- C3: for a non-administrator, `isAdmin` is `false` and `allowed` holds
exactly on Monday–Friday when the hour is ≥ 14, or < 10, or 10:00–10:15. -/
theorem checkTimeRestriction_nonadmin (adminEmails : List String)
    (userEmail : String) (t : ArgTime) (h : userEmail ∉ adminEmails) :
    (checkTimeRestriction adminEmails userEmail t).isAdmin = false ∧
    ((checkTimeRestriction adminEmails userEmail t).allowed = true ↔
      (1 ≤ t.dayOfWeek ∧ t.dayOfWeek ≤ 5) ∧
      (14 ≤ t.hour ∨ t.hour < 10 ∨ (t.hour = 10 ∧ t.minute ≤ 15))) := by
  constructor
  · simp [checkTimeRestriction, h]
  · simp [checkTimeRestriction, h, and_assoc, or_assoc]

/-- C3 witness: a non-administrator on Monday 14:00 is allowed (and not an
administrator). -/
theorem checkTimeRestriction_nonadmin_witness :
    (checkTimeRestriction ADMIN_EMAILS "user@example.com"
      ⟨⟨2025, 10, 6⟩, 1, 14, 0⟩).isAdmin = false ∧
    (checkTimeRestriction ADMIN_EMAILS "user@example.com"
      ⟨⟨2025, 10, 6⟩, 1, 14, 0⟩).allowed = true :=
  ⟨(checkTimeRestriction_nonadmin ADMIN_EMAILS "user@example.com"
      ⟨⟨2025, 10, 6⟩, 1, 14, 0⟩ (by decide)).1,
   (checkTimeRestriction_nonadmin ADMIN_EMAILS "user@example.com"
      ⟨⟨2025, 10, 6⟩, 1, 14, 0⟩ (by decide)).2.mpr (by decide)⟩

/-- A row of the `pedidos` table. -/
structure Pedido where
  id : Nat
  nombre : String
  email : String
  usuario : String
  plato1 : String
  plato2 : String
  plato3 : String
  fecha : String
  timestamp : Nat
deriving DecidableEq

/-- An entry of the flattened `allDishes` list in `calculateDishNumbers`. -/
structure DishEntry where
  plato : String
  email : String
  timestamp : Nat
deriving DecidableEq

/-- The dish entries one record contributes: each of `plato1..plato3` that is
non-empty after trimming, in slot order. -/
def dishesOfPedido (p : Pedido) : List DishEntry :=
  ([p.plato1, p.plato2, p.plato3].filter
    (fun plato => plato != "" && jsTrim plato != "")).map
    (fun plato => ⟨jsTrim plato, p.email, p.timestamp⟩)

/-- The `allDishes` list of `calculateDishNumbers`: every record's non-empty
dish slots, flattened in record order. -/
def flattenDishes (pedidos : List Pedido) : List DishEntry :=
  pedidos.flatMap dishesOfPedido

/-- The `dishNumbers` loop of `calculateDishNumbers`: the 1-based positions
in `allDishes` whose entry belongs to `userEmail`. -/
def dishNumbersOf (allDishes : List DishEntry) (userEmail : String) :
    List Nat :=
  (allDishes.enum.filter (fun d => d.2.email == userEmail)).map
    (fun d => d.1 + 1)

/-- `calculateDishNumbers` from `src/server.js`, over the store's reply to
the cycle query (`Except.error` when the store query fails, in which case the
`catch` branch returns `[]`). -/
def calculateDishNumbers (queryResult : Except String (List Pedido))
    (userEmail : String) : List Nat :=
  match queryResult with
  | Except.error _ => []
  | Except.ok pedidos => dishNumbersOf (flattenDishes pedidos) userEmail

lemma enumFrom_pairwise_fst {α : Type} (n : Nat) (l : List α) :
    (List.enumFrom n l).Pairwise (fun a b => a.1 < b.1) := by
  induction l generalizing n with
  | nil => simp
  | cons a l ih =>
    rw [List.enumFrom, List.pairwise_cons]
    refine ⟨?_, ih (n + 1)⟩
    rintro ⟨i, x⟩ hm
    have h := List.mem_enumFrom hm
    simp only at h ⊢
    omega

lemma dishNumbersOf_pairwise (L : List DishEntry) (userEmail : String) :
    List.Pairwise (· < ·) (dishNumbersOf L userEmail) := by
  have h1 : (L.enum).Pairwise (fun a b => a.1 < b.1) :=
    enumFrom_pairwise_fst 0 L
  have h2 := h1.filter (fun d => d.2.email == userEmail)
  rw [dishNumbersOf, List.pairwise_map]
  exact h2.imp (fun h => Nat.succ_lt_succ h)

lemma dishNumbersOf_mem (L : List DishEntry) (userEmail : String) (n : Nat) :
    n ∈ dishNumbersOf L userEmail ↔
      ∃ i d, L[i]? = some d ∧ d.email = userEmail ∧ n = i + 1 := by
  simp only [dishNumbersOf, List.mem_map, List.mem_filter, beq_iff_eq,
    List.mem_enum_iff_getElem?]
  constructor
  · rintro ⟨⟨i, d⟩, ⟨hget, he⟩, hn⟩
    exact ⟨i, d, hget, he, hn.symm⟩
  · rintro ⟨i, d, hget, he, hn⟩
    exact ⟨(i, d), ⟨hget, he⟩, hn.symm⟩

/-- First example record: 2 dishes, submitted at tick 1. -/
def exPedidoA : Pedido :=
  ⟨1, "Ana", "a@x.com", "a", "Tarta - pollo", "Ensalada César", "",
   "2025-10-07", 1⟩

/-- Second example record: 1 dish, submitted at tick 2. -/
def exPedidoB : Pedido :=
  ⟨2, "Beto", "b@x.com", "b", "Tortilla de papa", "", "", "2025-10-07", 2⟩

/-- Third example record: 3 dishes, submitted at tick 3. -/
def exPedidoC : Pedido :=
  ⟨3, "Cami", "c@x.com", "c", "Pastel de papa", "Ensalada Completa",
   "Fideos con bolognesa", "2025-10-07", 3⟩

/-- C4: over any chronologically sorted record list, `calculateDishNumbers`
returns exactly the 1-based positions of the identity's entries in the
flattened dish sequence, in ascending order; and on three records with 2, 1
and 3 dishes it assigns 1–2, 3 and 4–6. -/
theorem calculateDishNumbers_spec :
    (∀ (pedidos : List Pedido) (userEmail : String),
      List.Pairwise (· < ·)
        (calculateDishNumbers (Except.ok pedidos) userEmail) ∧
      (∀ n, n ∈ calculateDishNumbers (Except.ok pedidos) userEmail ↔
        ∃ i d, (flattenDishes pedidos)[i]? = some d ∧
          d.email = userEmail ∧ n = i + 1)) ∧
    calculateDishNumbers (Except.ok [exPedidoA, exPedidoB, exPedidoC])
      "a@x.com" = [1, 2] ∧
    calculateDishNumbers (Except.ok [exPedidoA, exPedidoB, exPedidoC])
      "b@x.com" = [3] ∧
    calculateDishNumbers (Except.ok [exPedidoA, exPedidoB, exPedidoC])
      "c@x.com" = [4, 5, 6] :=
  ⟨fun pedidos userEmail =>
    ⟨dishNumbersOf_pairwise (flattenDishes pedidos) userEmail,
     dishNumbersOf_mem (flattenDishes pedidos) userEmail⟩,
   by decide, by decide, by decide⟩

/-- Stable insertion of a record into a timestamp-sorted list: the new record
goes after every record with a ≤ timestamp. -/
def insertByTimestamp (p : Pedido) : List Pedido → List Pedido
  | [] => [p]
  | q :: qs =>
      if q.timestamp ≤ p.timestamp then q :: insertByTimestamp p qs
      else p :: q :: qs

/-- Stable sort of the store rows by ascending `timestamp` (ties keep the
store order), modelling `order('timestamp', ascending: true)`. -/
def sortByTimestamp (l : List Pedido) : List Pedido :=
  l.foldl (fun acc p => insertByTimestamp p acc) []

/-- The store query `from('pedidos').select().eq('fecha', cycleDate)
.order('timestamp', ascending)`. -/
def queryCycle (store : List Pedido) (fecha : String) : List Pedido :=
  sortByTimestamp (store.filter (fun p => p.fecha == fecha))

/-- The store query `.eq('email', …).eq('fecha', …).single()`: the first row
of the `(identity, cycle)` pair, if any. -/
def findExisting (store : List Pedido) (userEmail fecha : String) :
    Option Pedido :=
  store.find? (fun p => p.email == userEmail && p.fecha == fecha)

/-- A fresh row id for an insert (the DB assigns ids; any id not already in
the store works). -/
def freshId (store : List Pedido) : Nat :=
  (store.map Pedido.id).foldr max 0 + 1

/-- The create-or-update step of `POST /api/pedidos`: update the existing
`(identity, cycle)` row in place (same id) or insert a new row at the end. -/
def submitWrite (store : List Pedido) (orderData : Pedido)
    (userEmail cycleDate : String) : String × List Pedido :=
  match findExisting store userEmail cycleDate with
  | some existingOrder =>
      ("updated",
        store.map (fun p =>
          if p.id == existingOrder.id then
            { orderData with id := existingOrder.id }
          else p))
  | none =>
      ("created", store ++ [{ orderData with id := freshId store }])

/-- Request body of `POST /api/pedidos`; absent JSON fields are `none`. -/
structure SubmitReq where
  nombre : Option String
  plato1 : Option String
  plato2 : Option String
  plato3 : Option String
deriving DecidableEq

/-- Response of `POST /api/pedidos` (status is the HTTP code; `action`,
`dishNumbers`, `totalPlatos` are absent on the error responses). -/
structure SubmitResp where
  success : Bool
  status : Nat
  message : String
  action : Option String
  dishNumbers : List Nat
  totalPlatos : Nat
deriving DecidableEq

/-- The `orderData` object built by `POST /api/pedidos` (the `id` column is
not part of it; the write step fills it in). -/
def mkOrderData (req : SubmitReq) (userEmail cycleDate : String)
    (now : Nat) : Pedido :=
  { id := 0
    nombre := jsTrim (jsOrEmpty req.nombre)
    email := userEmail
    usuario := emailLocalPart userEmail
    plato1 := jsOrEmpty req.plato1
    plato2 := jsOrEmpty req.plato2
    plato3 := jsOrEmpty req.plato3
    fecha := cycleDate
    timestamp := now }

/-- `POST /api/pedidos` from `src/server.js` after authentication: time-window
check, input validation, create-or-update, then dish-number recomputation.
`numberingQuery` is the store's reply to the recomputation query
(`Except.error` when that query fails); `now` is the submission tick. -/
def postPedidos (store : List Pedido) (req : SubmitReq) (userEmail : String)
    (argTime : ArgTime) (now : Nat) (numberingQuery : Except String Unit) :
    SubmitResp × List Pedido :=
  let timeCheck := checkTimeRestriction ADMIN_EMAILS userEmail argTime
  if !timeCheck.allowed then
    (⟨false, 403,
      "La app solo está disponible de lunes a viernes de 14:00 a 10:15",
      none, [], 0⟩, store)
  else if jsFalsy req.nombre || jsTrim (jsOrEmpty req.nombre) == "" then
    (⟨false, 400, "Por favor ingresa tu nombre", none, [], 0⟩, store)
  else if jsFalsy req.plato1 then
    (⟨false, 400, "Por favor selecciona al menos el plato principal",
      none, [], 0⟩, store)
  else
    let cycleDate := getCycleDate argTime
    let orderData := mkOrderData req userEmail cycleDate now
    let written := submitWrite store orderData userEmail cycleDate
    let action := written.1
    let store2 := written.2
    let dishNumbers := calculateDishNumbers
      (numberingQuery.map (fun _ => queryCycle store2 cycleDate)) userEmail
    let base := if action == "updated" then "Pedido actualizado correctamente"
      else "Pedido registrado correctamente"
    let message :=
      if 0 < dishNumbers.length then
        if dishNumbers.length == 1 then
          base ++ ". Tu plato es el número " ++ toString (dishNumbers.headD 0)
        else
          base ++ ". Tus platos son los números " ++
            String.intercalate ", " (dishNumbers.map toString)
      else base
    (⟨true, 200, message, some action, dishNumbers, dishNumbers.length⟩,
      store2)

/-- One entry of the stats `peopleList`. -/
structure Person where
  nombre : String
  usuario : String
  timestamp : Nat
  plato1 : String
  plato2 : String
  plato3 : String
deriving DecidableEq

/-- The `stats` aggregate of `GET /api/stats`; `menuStats` is the JS object
in property-insertion order. -/
structure Stats where
  totalOrders : Nat
  menuStats : List (String × Nat)
  peopleList : List Person
deriving DecidableEq

/-- `stats.menuStats[plato] = (stats.menuStats[plato] || 0) + 1`. -/
def bumpCount (m : List (String × Nat)) (k : String) : List (String × Nat) :=
  if (m.find? (fun kv => kv.1 == k)).isSome then
    m.map (fun kv => if kv.1 == k then (kv.1, kv.2 + 1) else kv)
  else m ++ [(k, 1)]

/-- Response of `GET /api/stats`. -/
structure StatsResp where
  success : Bool
  status : Nat
  message : String
  stats : Stats
deriving DecidableEq

/-- `GET /api/stats` from `src/server.js` after authentication, over the
store's reply to the cycle query.  A store failure lands in the `catch`
branch: HTTP 500, `success: false`, a message carrying the store's error and
a zeroed aggregate. -/
def getStats (queryResult : Except String (List Pedido)) : StatsResp :=
  match queryResult with
  | Except.error e =>
      ⟨false, 500, "Error al obtener estadísticas: " ++ e, ⟨0, [], []⟩⟩
  | Except.ok pedidos =>
      let stats := pedidos.foldl (fun acc pedido =>
        let acc :=
          { acc with peopleList := acc.peopleList ++
              [⟨pedido.nombre, pedido.usuario, pedido.timestamp,
                pedido.plato1, pedido.plato2, pedido.plato3⟩] }
        [pedido.plato1, pedido.plato2, pedido.plato3].foldl
          (fun a plato =>
            if plato != "" && jsTrim plato != "" then
              { a with menuStats := bumpCount a.menuStats plato }
            else a) acc)
        ⟨pedidos.length, [], []⟩
      ⟨true, 200, "", stats⟩

/-- Response of `DELETE /api/pedidos/current`. -/
structure CancelResp where
  success : Bool
  status : Nat
  message : String
deriving DecidableEq

/-- `DELETE /api/pedidos/current` from `src/server.js` after authentication:
time-window check, then unconditional `(identity, cycle)` delete. -/
def deletePedidos (store : List Pedido) (userEmail : String)
    (argTime : ArgTime) : CancelResp × List Pedido :=
  let cycleDate := getCycleDate argTime
  let timeCheck := checkTimeRestriction ADMIN_EMAILS userEmail argTime
  if !timeCheck.allowed then
    (⟨false, 403,
      "La app solo está disponible de lunes a viernes de 14:00 a 10:15"⟩,
      store)
  else
    (⟨true, 200, "Pedido cancelado correctamente"⟩,
      store.filter (fun p => !(p.email == userEmail && p.fecha == cycleDate)))

/-- C8: on a store failure `GET /api/stats` answers (it never rethrows) with
`success: false`, the store's message, and the zero aggregate. -/
theorem getStats_store_failure (e : String) :
    getStats (Except.error e) =
      ⟨false, 500, "Error al obtener estadísticas: " ++ e, ⟨0, [], []⟩⟩ := rfl

/-- C9: within the access window, cancelling when no `(identity, cycle)`
record exists succeeds and leaves the store unchanged. -/
theorem deletePedidos_idempotent (store : List Pedido) (userEmail : String)
    (t : ArgTime)
    (hAllow : (checkTimeRestriction ADMIN_EMAILS userEmail t).allowed = true)
    (hAbsent : ∀ p ∈ store,
      ¬(p.email = userEmail ∧ p.fecha = getCycleDate t)) :
    (deletePedidos store userEmail t).1 =
      ⟨true, 200, "Pedido cancelado correctamente"⟩ ∧
    (deletePedidos store userEmail t).2 = store := by
  constructor
  · simp [deletePedidos, hAllow]
  · simp only [deletePedidos, hAllow, Bool.not_true, Bool.false_eq_true,
      if_false]
    rw [List.filter_eq_self]
    intro p hp
    have h := hAbsent p hp
    simp only [Bool.not_eq_true', Bool.not_eq_true, Bool.and_eq_false_iff,
      beq_eq_false_iff_ne, ne_eq]
    tauto

/-- C9 witness: an administrator cancelling over the empty store on a Sunday
at 03:07. -/
theorem deletePedidos_idempotent_witness :
    (deletePedidos [] "juliandanielpappalettera@gmail.com"
      ⟨⟨2025, 10, 5⟩, 0, 3, 7⟩).1 =
      ⟨true, 200, "Pedido cancelado correctamente"⟩ ∧
    (deletePedidos [] "juliandanielpappalettera@gmail.com"
      ⟨⟨2025, 10, 5⟩, 0, 3, 7⟩).2 = [] :=
  deletePedidos_idempotent [] "juliandanielpappalettera@gmail.com"
    ⟨⟨2025, 10, 5⟩, 0, 3, 7⟩ (by decide) (by simp)

lemma nombre_invalid_iff (n : Option String) :
    (jsFalsy n || (jsTrim (jsOrEmpty n) == "")) = true ↔
      jsTrim (jsOrEmpty n) = "" := by
  have h0 : jsTrim "" = "" := by decide
  cases n with
  | none => simp [jsFalsy, jsOrEmpty, h0]
  | some s =>
    rcases eq_or_ne s "" with rfl | hs
    · simp [jsFalsy, jsOrEmpty, h0]
    · simp [jsFalsy, jsOrEmpty, hs]

/-- C7: with the window open, submit rejects a missing/blank name with the
name message, then rejects a falsy first dish with the dish message (both
without writing); with a non-empty name and any non-empty `plato1` — no
menu-membership check — it succeeds. -/
theorem postPedidos_input_validation (store : List Pedido) (req : SubmitReq)
    (userEmail : String) (t : ArgTime) (now : Nat) (q : Except String Unit)
    (hAllow : (checkTimeRestriction ADMIN_EMAILS userEmail t).allowed = true) :
    (jsTrim (jsOrEmpty req.nombre) = "" →
      postPedidos store req userEmail t now q =
        (⟨false, 400, "Por favor ingresa tu nombre", none, [], 0⟩, store)) ∧
    (jsTrim (jsOrEmpty req.nombre) ≠ "" → jsFalsy req.plato1 = true →
      postPedidos store req userEmail t now q =
        (⟨false, 400, "Por favor selecciona al menos el plato principal",
          none, [], 0⟩, store)) ∧
    (jsTrim (jsOrEmpty req.nombre) ≠ "" → jsFalsy req.plato1 = false →
      (postPedidos store req userEmail t now q).1.success = true ∧
      (postPedidos store req userEmail t now q).1.status = 200) := by
  refine ⟨?_, ?_, ?_⟩
  · intro hN
    have hcond := (nombre_invalid_iff req.nombre).mpr hN
    simp [postPedidos, hAllow, hcond]
  · intro hN hP
    have hcond : (jsFalsy req.nombre ||
        (jsTrim (jsOrEmpty req.nombre) == "")) = false := by
      rw [Bool.eq_false_iff]
      exact fun hcon => hN ((nombre_invalid_iff req.nombre).mp hcon)
    simp [postPedidos, hAllow, hcond, hP]
  · intro hN hP
    have hcond : (jsFalsy req.nombre ||
        (jsTrim (jsOrEmpty req.nombre) == "")) = false := by
      rw [Bool.eq_false_iff]
      exact fun hcon => hN ((nombre_invalid_iff req.nombre).mp hcon)
    constructor <;> simp [postPedidos, hAllow, hcond, hP]

/-- C7 witness: a non-administrator on Monday 14:00 submitting a name and a
`plato1` that is not on the configured menu is accepted. -/
theorem postPedidos_input_validation_witness :
    (postPedidos [] ⟨some "Ana", some "Milanesa inexistente", none, none⟩
      "user@example.com" ⟨⟨2025, 10, 6⟩, 1, 14, 0⟩ 1 (Except.ok ())).1.success
      = true ∧
    (postPedidos [] ⟨some "Ana", some "Milanesa inexistente", none, none⟩
      "user@example.com" ⟨⟨2025, 10, 6⟩, 1, 14, 0⟩ 1 (Except.ok ())).1.status
      = 200 :=
  (postPedidos_input_validation [] ⟨some "Ana", some "Milanesa inexistente",
      none, none⟩ "user@example.com" ⟨⟨2025, 10, 6⟩, 1, 14, 0⟩ 1
      (Except.ok ()) (by decide)).2.2 (by decide) (by decide)

/-- Monday 2025-10-06 at 14:05 Buenos Aires time (window open, cycle
2025-10-07). -/
def exTime : ArgTime := ⟨⟨2025, 10, 6⟩, 1, 14, 5⟩

/-- Identity A's request: two dishes. -/
def exReqA : SubmitReq :=
  ⟨some "Ana", some "Tarta - pollo", some "Ensalada César", none⟩

/-- Identity B's request: one dish. -/
def exReqB : SubmitReq := ⟨some "Beto", some "Tortilla de papa", none, none⟩

/-- Store after A's first submission (tick 1). -/
def exStore1 : List Pedido :=
  (postPedidos [] exReqA "a@x.com" exTime 1 (Except.ok ())).2

/-- Store after B's submission (tick 2). -/
def exStore2 : List Pedido :=
  (postPedidos exStore1 exReqB "b@x.com" exTime 2 (Except.ok ())).2

/-- C5: A submits first and gets numbers 1–2, B gets 3; after A resubmits at
a later tick the update refreshes A's timestamp, so A's dishes renumber to
2–3 and B's to 1 — numbers are not sticky. -/
theorem resubmission_renumbering :
    (postPedidos [] exReqA "a@x.com" exTime 1 (Except.ok ())).1.dishNumbers
      = [1, 2] ∧
    (postPedidos exStore1 exReqB "b@x.com" exTime 2
      (Except.ok ())).1.dishNumbers = [3] ∧
    (postPedidos exStore2 exReqA "a@x.com" exTime 3 (Except.ok ())).1.action
      = some "updated" ∧
    (postPedidos exStore2 exReqA "a@x.com" exTime 3
      (Except.ok ())).1.dishNumbers = [2, 3] ∧
    calculateDishNumbers
      (Except.ok (queryCycle
        (postPedidos exStore2 exReqA "a@x.com" exTime 3 (Except.ok ())).2
        (getCycleDate exTime))) "b@x.com" = [1] := by
  decide

lemma find?_map_update (l : List Pedido) (old c : Pedido)
    (p : Pedido → Bool) (hl : l.find? p = some old) (hc : p c = true) :
    (l.map (fun x => if x.id == old.id then c else x)).find? p = some c := by
  induction l with
  | nil => simp at hl
  | cons a l ih =>
    by_cases ha : p a = true
    · have haold : a = old := by
        rw [List.find?_cons, ha] at hl
        exact Option.some_injective _ hl
      subst haold
      simp [List.find?_cons, hc]
    · have ha' : p a = false := Bool.eq_false_iff.mpr ha
      rw [List.find?_cons, ha'] at hl
      by_cases hid : (a.id == old.id) = true
      · rw [List.map_cons, if_pos hid, List.find?_cons, hc]
      · have hid' : (a.id == old.id) = false := Bool.eq_false_iff.mpr hid
        simp only [List.map_cons, hid', if_false, List.find?_cons, ha',
          Bool.false_eq_true]
        exact ih hl

lemma submitWrite_find (store : List Pedido) (orderData : Pedido)
    (userEmail cycleDate : String)
    (he : orderData.email = userEmail) (hf : orderData.fecha = cycleDate) :
    ∃ y, findExisting (submitWrite store orderData userEmail cycleDate).2
      userEmail cycleDate = some { orderData with id := y } := by
  have hp : ∀ y : Nat,
      (fun p : Pedido => p.email == userEmail && p.fecha == cycleDate)
        { orderData with id := y } = true := by
    intro y
    simp [he, hf]
  cases hfind : findExisting store userEmail cycleDate with
  | some old =>
    refine ⟨old.id, ?_⟩
    simp only [submitWrite, hfind]
    exact find?_map_update store old _ _ hfind (hp old.id)
  | none =>
    refine ⟨freshId store, ?_⟩
    simp only [submitWrite, hfind]
    unfold findExisting at hfind ⊢
    rw [List.find?_append, hfind]
    have hpn := hp (freshId store)
    simp only at hpn
    simp [List.find?_cons, hpn]

lemma submitWrite_updated (store : List Pedido) (orderData x : Pedido)
    (userEmail cycleDate : String)
    (h : findExisting store userEmail cycleDate = some x) :
    (submitWrite store orderData userEmail cycleDate).1 = "updated" := by
  simp [submitWrite, h]

lemma nombre_cond_false (req : SubmitReq)
    (hNombre : jsTrim (jsOrEmpty req.nombre) ≠ "") :
    (jsFalsy req.nombre || (jsTrim (jsOrEmpty req.nombre) == "")) = false :=
  Bool.eq_false_iff.mpr
    (fun hcon => hNombre ((nombre_invalid_iff req.nombre).mp hcon))

lemma postPedidos_success_reduce (store : List Pedido) (req : SubmitReq)
    (userEmail : String) (t : ArgTime) (now : Nat) (q : Except String Unit)
    (hAllow : (checkTimeRestriction ADMIN_EMAILS userEmail t).allowed = true)
    (hNombre : jsTrim (jsOrEmpty req.nombre) ≠ "")
    (hPlato : jsFalsy req.plato1 = false) :
    (postPedidos store req userEmail t now q).2 =
      (submitWrite store (mkOrderData req userEmail (getCycleDate t) now)
        userEmail (getCycleDate t)).2 ∧
    (postPedidos store req userEmail t now q).1.success = true ∧
    (postPedidos store req userEmail t now q).1.action =
      some (submitWrite store (mkOrderData req userEmail (getCycleDate t) now)
        userEmail (getCycleDate t)).1 := by
  have hcond := nombre_cond_false req hNombre
  refine ⟨?_, ?_, ?_⟩ <;> simp [postPedidos, hAllow, hcond, hPlato]

/-- C6: a second submit with identical arguments in the same cycle reports
`action = 'updated'`; the stored `(identity, cycle)` record keeps the same
name, dishes and cycle date as after the first call, while its timestamp is
refreshed to the second call's tick. -/
theorem postPedidos_idempotent_update (store : List Pedido) (req : SubmitReq)
    (userEmail : String) (t : ArgTime) (now1 now2 : Nat)
    (q1 q2 : Except String Unit)
    (hAllow : (checkTimeRestriction ADMIN_EMAILS userEmail t).allowed = true)
    (hNombre : jsTrim (jsOrEmpty req.nombre) ≠ "")
    (hPlato : jsFalsy req.plato1 = false) :
    (postPedidos (postPedidos store req userEmail t now1 q1).2 req userEmail
      t now2 q2).1.success = true ∧
    (postPedidos (postPedidos store req userEmail t now1 q1).2 req userEmail
      t now2 q2).1.action = some "updated" ∧
    ∃ rec1 rec2,
      findExisting (postPedidos store req userEmail t now1 q1).2 userEmail
        (getCycleDate t) = some rec1 ∧
      findExisting (postPedidos (postPedidos store req userEmail t now1
        q1).2 req userEmail t now2 q2).2 userEmail (getCycleDate t)
        = some rec2 ∧
      rec1.timestamp = now1 ∧ rec2.timestamp = now2 ∧
      rec2.nombre = rec1.nombre ∧ rec2.plato1 = rec1.plato1 ∧
      rec2.plato2 = rec1.plato2 ∧ rec2.plato3 = rec1.plato3 ∧
      rec2.fecha = rec1.fecha ∧ rec2.fecha = getCycleDate t := by
  obtain ⟨hs1, _, _⟩ :=
    postPedidos_success_reduce store req userEmail t now1 q1 hAllow hNombre
      hPlato
  obtain ⟨y1, hfind1⟩ :=
    submitWrite_find store (mkOrderData req userEmail (getCycleDate t) now1)
      userEmail (getCycleDate t) rfl rfl
  rw [← hs1] at hfind1
  obtain ⟨hs2, hsucc2, hact2⟩ :=
    postPedidos_success_reduce (postPedidos store req userEmail t now1 q1).2
      req userEmail t now2 q2 hAllow hNombre hPlato
  obtain ⟨y2, hfind2⟩ :=
    submitWrite_find (postPedidos store req userEmail t now1 q1).2
      (mkOrderData req userEmail (getCycleDate t) now2) userEmail
      (getCycleDate t) rfl rfl
  rw [← hs2] at hfind2
  have hupd :=
    submitWrite_updated (postPedidos store req userEmail t now1 q1).2
      (mkOrderData req userEmail (getCycleDate t) now2) _ userEmail
      (getCycleDate t) hfind1
  refine ⟨hsucc2, by rw [hact2, hupd],
    { mkOrderData req userEmail (getCycleDate t) now1 with id := y1 },
    { mkOrderData req userEmail (getCycleDate t) now2 with id := y2 },
    hfind1, hfind2, rfl, rfl, rfl, rfl, rfl, rfl, rfl, rfl⟩

/-- C6 witness: a concrete double submission on Monday 14:05 reports
`updated` the second time. -/
theorem postPedidos_idempotent_update_witness :
    (postPedidos (postPedidos []
      ⟨some "Ana", some "Tarta - pollo", none, none⟩ "user@example.com"
      ⟨⟨2025, 10, 6⟩, 1, 14, 5⟩ 1 (Except.ok ())).2
      ⟨some "Ana", some "Tarta - pollo", none, none⟩ "user@example.com"
      ⟨⟨2025, 10, 6⟩, 1, 14, 5⟩ 2 (Except.ok ())).1.action
      = some "updated" :=
  (postPedidos_idempotent_update []
    ⟨some "Ana", some "Tarta - pollo", none, none⟩ "user@example.com"
    ⟨⟨2025, 10, 6⟩, 1, 14, 5⟩ 1 2 (Except.ok ()) (Except.ok ())
    (by decide) (by decide) (by decide)).2.1

/-- C10: if the dish-number recomputation query fails after the write
succeeded, submit still answers success with the action tag set, an empty
dish-number list, `totalPlatos = 0` and the bare summary message (no numbers
appended); the written store is the same as with a healthy query. -/
theorem postPedidos_numbering_failure_swallowed (store : List Pedido)
    (req : SubmitReq) (userEmail : String) (t : ArgTime) (now : Nat)
    (e : String)
    (hAllow : (checkTimeRestriction ADMIN_EMAILS userEmail t).allowed = true)
    (hNombre : jsTrim (jsOrEmpty req.nombre) ≠ "")
    (hPlato : jsFalsy req.plato1 = false) :
    (postPedidos store req userEmail t now (Except.error e)).1.success
      = true ∧
    (postPedidos store req userEmail t now (Except.error e)).1.dishNumbers
      = [] ∧
    (postPedidos store req userEmail t now (Except.error e)).1.totalPlatos
      = 0 ∧
    ((postPedidos store req userEmail t now (Except.error e)).1.action
        = some "created" ∧
      (postPedidos store req userEmail t now (Except.error e)).1.message
        = "Pedido registrado correctamente" ∨
     (postPedidos store req userEmail t now (Except.error e)).1.action
        = some "updated" ∧
      (postPedidos store req userEmail t now (Except.error e)).1.message
        = "Pedido actualizado correctamente") ∧
    (postPedidos store req userEmail t now (Except.error e)).2 =
      (postPedidos store req userEmail t now (Except.ok ())).2 := by
  have hcond := nombre_cond_false req hNombre
  cases hfind : findExisting store userEmail (getCycleDate t) with
  | none =>
    refine ⟨?_, ?_, ?_, Or.inl ⟨?_, ?_⟩, ?_⟩ <;>
      simp [postPedidos, hAllow, hcond, hPlato, submitWrite, hfind,
        Except.map, calculateDishNumbers]
  | some old =>
    refine ⟨?_, ?_, ?_, Or.inr ⟨?_, ?_⟩, ?_⟩ <;>
      simp [postPedidos, hAllow, hcond, hPlato, submitWrite, hfind,
        Except.map, calculateDishNumbers]

/-- C10 witness: a concrete submit whose recomputation query fails still
succeeds, with no dish numbers and the bare creation message. -/
theorem postPedidos_numbering_failure_swallowed_witness :
    (postPedidos [] ⟨some "Ana", some "Tarta - pollo", none, none⟩
      "user@example.com" ⟨⟨2025, 10, 6⟩, 1, 14, 5⟩ 1
      (Except.error "consulta fallida")).1.success = true ∧
    (postPedidos [] ⟨some "Ana", some "Tarta - pollo", none, none⟩
      "user@example.com" ⟨⟨2025, 10, 6⟩, 1, 14, 5⟩ 1
      (Except.error "consulta fallida")).1.dishNumbers = [] ∧
    (postPedidos [] ⟨some "Ana", some "Tarta - pollo", none, none⟩
      "user@example.com" ⟨⟨2025, 10, 6⟩, 1, 14, 5⟩ 1
      (Except.error "consulta fallida")).1.totalPlatos = 0 :=
  ⟨(postPedidos_numbering_failure_swallowed []
      ⟨some "Ana", some "Tarta - pollo", none, none⟩ "user@example.com"
      ⟨⟨2025, 10, 6⟩, 1, 14, 5⟩ 1 "consulta fallida" (by decide) (by decide)
      (by decide)).1,
   (postPedidos_numbering_failure_swallowed []
      ⟨some "Ana", some "Tarta - pollo", none, none⟩ "user@example.com"
      ⟨⟨2025, 10, 6⟩, 1, 14, 5⟩ 1 "consulta fallida" (by decide) (by decide)
      (by decide)).2.1,
   (postPedidos_numbering_failure_swallowed []
      ⟨some "Ana", some "Tarta - pollo", none, none⟩ "user@example.com"
      ⟨⟨2025, 10, 6⟩, 1, 14, 5⟩ 1 "consulta fallida" (by decide) (by decide)
      (by decide)).2.2.1⟩
